import Mathlib

/-!
Verification of the graph resolution and attribute-query engine of the
Networkx-mcp repository, shallowly embedded in Lean.

Python values that flow through the query engine (attribute values, query
values, node identifiers) are modelled by `PyVal`: null, numbers (floats
modelled as rationals) and strings.  Python dictionaries of attributes are
association lists.  Fallible Python code (raising `ValueError` / `TypeError`)
is modelled with `Except`.
-/

/-- A Python value as seen by the query engine: `None`, a float (modelled as a
rational) or a string. -/
inductive PyVal where
  | none : PyVal
  | num : Rat → PyVal
  | str : String → PyVal
deriving DecidableEq, Repr

/-- The six comparison kinds stored in `operator_map` (graph_analytics.py,
lines 8-15). -/
inductive OpKind where
  | eq | ne | lt | le | gt | ge
deriving DecidableEq, Repr

/-- Errors raised by the attribute-query engine: `ValueError` for an
unsupported operator symbol, `TypeError` for an unordered cross-type
comparison. -/
inductive QueryError where
  | unsupportedOperator : String → QueryError
  | typeError : QueryError
deriving DecidableEq, Repr

/-- `operator_map` from graph_analytics.py: the dict sending the six operator
symbols to comparison functions; any other symbol is absent. -/
def operator_map : String → Option OpKind
  | "==" => some .eq
  | "!=" => some .ne
  | "<" => some .lt
  | "<=" => some .le
  | ">" => some .gt
  | ">=" => some .ge
  | _ => Option.none

/-- The list of the six recognized operator symbols (the keys of
`operator_map`). -/
def operatorSymbols : List String := ["==", "!=", "<", "<=", ">", ">="]

/-- Lexicographic comparison of character lists by code point, as Python
compares strings. -/
def charListLt : List Char → List Char → Bool
  | [], [] => false
  | [], _ :: _ => true
  | _ :: _, [] => false
  | a :: as, b :: bs => if a < b then true else if b < a then false else charListLt as bs

/-- Python `<` on strings. -/
def strLt (a b : String) : Bool := charListLt a.data b.data

/-- Python `==` on `PyVal`s: structural within a type, `False` across types
(never raises). -/
def pyEq : PyVal → PyVal → Bool
  | .none, .none => true
  | .num a, .num b => a = b
  | .str a, .str b => a = b
  | _, _ => false

/-- Python's ordered comparisons on `PyVal`s: defined within numbers and
within strings, `TypeError` otherwise (in particular whenever `None` or a
cross-type pair is involved). -/
def pyOrd : PyVal → PyVal → Except QueryError Ordering
  | .num a, .num b => .ok (if a < b then .lt else if a = b then .eq else .gt)
  | .str a, .str b => .ok (if strLt a b then .lt else if a = b then .eq else .gt)
  | _, _ => .error .typeError

/-- Evaluation of one comparison operator on two `PyVal`s, exactly as the
functions in Python's `operator` module behave on our value universe. -/
def pyCompare : OpKind → PyVal → PyVal → Except QueryError Bool
  | .eq, a, b => .ok (pyEq a b)
  | .ne, a, b => .ok (!pyEq a b)
  | .lt, a, b => (pyOrd a b).map (fun o => o = .lt)
  | .le, a, b => (pyOrd a b).map (fun o => o ≠ .gt)
  | .gt, a, b => (pyOrd a b).map (fun o => o = .gt)
  | .ge, a, b => (pyOrd a b).map (fun o => o ≠ .lt)

instance {ε α : Type} [DecidableEq ε] [DecidableEq α] : DecidableEq (Except ε α) := fun a b =>
  match a, b with
  | .ok x, .ok y => if h : x = y then .isTrue (by simp [h]) else .isFalse (by simp [h])
  | .error x, .error y => if h : x = y then .isTrue (by simp [h]) else .isFalse (by simp [h])
  | .ok _, .error _ => .isFalse (by simp)
  | .error _, .ok _ => .isFalse (by simp)

/-- Numeric value of a list of decimal digit characters. -/
def digitsVal (ds : List Char) : Nat :=
  ds.foldl (fun n c => n * 10 + (c.toNat - 48)) 0

/-- Parse an unsigned decimal literal (`digits`, `digits.digits`, `digits.`
or `.digits`), the fragment of Python `float()` parsing exercised by this
program. -/
def parseUnsigned (cs : List Char) : Option Rat :=
  let ip := cs.takeWhile Char.isDigit
  let rest := cs.dropWhile Char.isDigit
  match rest with
  | [] => if ip.isEmpty then Option.none else some (mkRat (digitsVal ip) 1)
  | '.' :: rest2 =>
    let fp := rest2.takeWhile Char.isDigit
    let rest3 := rest2.dropWhile Char.isDigit
    if rest3.isEmpty && !(ip.isEmpty && fp.isEmpty) then
      some (mkRat (digitsVal (ip ++ fp)) (10 ^ fp.length))
    else Option.none
  | _ => Option.none

/-- Python `float(s)` on a string: optional sign followed by a decimal
literal (exponent forms and surrounding whitespace, which this program never
relies on, are not modelled). -/
def parseFloat (s : String) : Option Rat :=
  match s.data with
  | '+' :: cs => parseUnsigned cs
  | '-' :: cs => (parseUnsigned cs).map (fun q => -q)
  | cs => parseUnsigned cs

/-- `NetworkXGraph.type_cast` (graph_analytics.py, lines 50-58): attempt
`float(value)`; on `ValueError`/`TypeError` keep the value unchanged.
`float` succeeds on a number (identity) and on a numeric string, and raises
on `None` and on non-numeric strings. -/
def type_cast (value : PyVal) : PyVal :=
  match value with
  | .str s =>
    match parseFloat s with
    | some q => .num q
    | Option.none => .str s
  | v => v

/-- An attribute dictionary: an association list with the first binding of a
key the authoritative one (Python dict keys are unique). -/
abbrev Attrs := List (String × PyVal)

/-- Python `attrs.get(key)`: the stored value, or `None` when the key is
absent.  A stored `None` and an absent key are indistinguishable through
`get`, exactly as in the Python code. -/
def attrGet (attrs : Attrs) (key : String) : PyVal :=
  match attrs.lookup key with
  | some v => v
  | Option.none => PyVal.none

/-- One stored edge of a materialized graph: endpoints, the multigraph
disambiguating key, and the attribute dictionary. -/
structure PyEdge where
  u : PyVal
  v : PyVal
  key : Nat
  attrs : Attrs
deriving DecidableEq, Repr

/-- A materialized NetworkX graph as the query engine observes it:
directedness and multigraph flags, the node list (id with attributes, ids
unique in a well-formed graph) and the edge list. -/
structure PyGraph where
  directed : Bool
  multigraph : Bool
  nodes : List (PyVal × Attrs)
  edges : List PyEdge
deriving DecidableEq, Repr

/-- The scan of `G.nodes(data=True)` in the non-null branch of
`nodes_by_attribute` (graph_analytics.py, lines 92-99): skip elements whose
attribute is absent or `None`, evaluate the comparison (propagating a raised
`TypeError`), keep the node id on `True`. -/
def nodesScan (opk : OpKind) (attrKey : String) (value : PyVal) :
    List (PyVal × Attrs) → Except QueryError (List PyVal)
  | [] => .ok []
  | (n, attrs) :: rest =>
    let nv := attrGet attrs attrKey
    if nv = PyVal.none then nodesScan opk attrKey value rest
    else
      match pyCompare opk nv value with
      | .error e => .error e
      | .ok b =>
        match nodesScan opk attrKey value rest with
        | .error e => .error e
        | .ok l => .ok (if b then n :: l else l)

/-- `NetworkXGraph.nodes_by_attribute` (graph_analytics.py, lines 60-100):
reject an unrecognized operator, type-cast the query value, then either the
existence filter (null query value) or the comparison scan. -/
def nodes_by_attribute (G : PyGraph) (attrKey : String) (value : PyVal)
    (op : String) : Except QueryError (List PyVal) :=
  match operator_map op with
  | Option.none => .error (.unsupportedOperator op)
  | some opk =>
    let value := type_cast value
    if value = PyVal.none then
      .ok ((G.nodes.filter (fun p => attrGet p.2 attrKey ≠ PyVal.none)).map Prod.fst)
    else
      nodesScan opk attrKey value G.nodes

/-- The identity of an edge in a query result: a 2-tuple `(u, v)` for simple
graphs, a 3-tuple `(u, v, key)` for multigraphs. -/
inductive EdgeId where
  | simple : PyVal → PyVal → EdgeId
  | multi : PyVal → PyVal → Nat → EdgeId
deriving DecidableEq, Repr

/-- Whether an edge identity is the 3-tuple (multigraph) shape. -/
def EdgeId.isMulti : EdgeId → Bool
  | .simple _ _ => false
  | .multi _ _ _ => true

/-- The scan of `G.edges(keys=True, data=True)` in the multigraph non-null
branch of `edges_by_attribute` (graph_analytics.py, lines 117-125). -/
def edgesScanMulti (opk : OpKind) (attrKey : String) (value : PyVal) :
    List PyEdge → Except QueryError (List EdgeId)
  | [] => .ok []
  | e :: rest =>
    let ev := attrGet e.attrs attrKey
    if ev = PyVal.none then edgesScanMulti opk attrKey value rest
    else
      match pyCompare opk ev value with
      | .error err => .error err
      | .ok b =>
        match edgesScanMulti opk attrKey value rest with
        | .error err => .error err
        | .ok l => .ok (if b then .multi e.u e.v e.key :: l else l)

/-- The scan of `G.edges(data=True)` in the simple-graph non-null branch of
`edges_by_attribute` (graph_analytics.py, lines 129-137). -/
def edgesScanSimple (opk : OpKind) (attrKey : String) (value : PyVal) :
    List PyEdge → Except QueryError (List EdgeId)
  | [] => .ok []
  | e :: rest =>
    let ev := attrGet e.attrs attrKey
    if ev = PyVal.none then edgesScanSimple opk attrKey value rest
    else
      match pyCompare opk ev value with
      | .error err => .error err
      | .ok b =>
        match edgesScanSimple opk attrKey value rest with
        | .error err => .error err
        | .ok l => .ok (if b then .simple e.u e.v :: l else l)

/-- `NetworkXGraph.edges_by_attribute` (graph_analytics.py, lines 102-137):
reject an unrecognized operator, type-cast the query value, then branch on
`G.is_multigraph()`; each branch has an existence filter for a null query
value and a comparison scan otherwise. -/
def edges_by_attribute (G : PyGraph) (attrKey : String) (value : PyVal)
    (op : String) : Except QueryError (List EdgeId) :=
  match operator_map op with
  | Option.none => .error (.unsupportedOperator op)
  | some opk =>
    let value := type_cast value
    if G.multigraph then
      if value = PyVal.none then
        .ok ((G.edges.filter (fun e => attrGet e.attrs attrKey ≠ PyVal.none)).map
          (fun e => .multi e.u e.v e.key))
      else
        edgesScanMulti opk attrKey value G.edges
    else
      if value = PyVal.none then
        .ok ((G.edges.filter (fun e => attrGet e.attrs attrKey ≠ PyVal.none)).map
          (fun e => .simple e.u e.v))
      else
        edgesScanSimple opk attrKey value G.edges

/-- The element kinds accepted by `matching_attributes` ("node", "edge",
"all"). -/
inductive ElemKind where
  | node | edge | all
deriving DecidableEq, Repr

/-- Lower-case a string character by character, as Python `str.lower` does on
the ASCII attribute names this program handles. -/
def strToLower (s : String) : String := ⟨s.data.map Char.toLower⟩

/-- Whether `needle` occurs contiguously inside `hay` (Python's
`needle in hay` on the underlying character lists). -/
def containsChars (hay needle : List Char) : Bool :=
  match hay with
  | [] => needle.isEmpty
  | _ :: t => needle.isPrefixOf hay || containsChars t needle

/-- Python `needle in hay` on strings. -/
def strContains (hay needle : String) : Bool := containsChars hay.data needle.data

/-- The attribute keys appearing on any node of `G`, deduplicated (the set
comprehension over `G.nodes(data=True)` in graph_analytics.py, line 147). -/
def nodeAttrKeys (G : PyGraph) : List String :=
  (G.nodes.flatMap (fun p => p.2.map Prod.fst)).dedup

/-- The attribute keys appearing on any edge of `G`, deduplicated (the set
comprehension over `G.edges(data=True)` in graph_analytics.py, line 149). -/
def edgeAttrKeys (G : PyGraph) : List String :=
  (G.edges.flatMap (fun e => e.attrs.map Prod.fst)).dedup

/-- `NetworkXGraph.matching_attributes` (graph_analytics.py, lines 139-157):
collect the attribute-key set of the requested element kind, then keep the
keys in which the search string occurs as a case-insensitive substring. -/
def matching_attributes (G : PyGraph) (attrKey : String) (kind : ElemKind) :
    List String :=
  let all_attrs : List String :=
    match kind with
    | .node => nodeAttrKeys G
    | .edge => edgeAttrKeys G
    | .all => (nodeAttrKeys G ++ edgeAttrKeys G).dedup
  all_attrs.filter (fun k => strContains (strToLower k) (strToLower attrKey))

/-- The node-link graph description (`GraphDataModel` in classes.py): flags
plus raw node and link dictionaries ("links" and "edges" are accepted as the
same field by the pydantic alias, so a single field models both). -/
structure GraphDataModel where
  directed : Bool
  multigraph : Bool
  nodes : List Attrs
  links : List Attrs
deriving DecidableEq, Repr

/-- The module-level `_loaded_graphs` dict of cache.py: a mapping from alias
strings to stored graph descriptions. -/
def Cache : Type := String → Option GraphDataModel

/-- The empty cache (the state of `_loaded_graphs` at process start). -/
def emptyCache : Cache := fun _ => Option.none

/-- `cache_graph` (cache.py, lines 67-77): `_loaded_graphs[alias] =
graph_data`, an unconditional overwrite. -/
def cache_graph (c : Cache) (aliasKey : String) (graph_data : GraphDataModel) : Cache :=
  fun x => if x = aliasKey then some graph_data else c x

/-- `get_cached_graph` (cache.py, lines 51-64): `_loaded_graphs.get(alias)`. -/
def get_cached_graph (c : Cache) (aliasKey : String) : Option GraphDataModel :=
  c aliasKey

/-- `is_cached` (cache.py, lines 80-93): `alias in _loaded_graphs`. -/
def is_cached (c : Cache) (aliasKey : String) : Bool :=
  (c aliasKey).isSome

/-- The key count used by `nx.MultiGraph.add_edge` when assigning a fresh
edge key: the number of parallel edges already present between the two
endpoints (unordered for undirected graphs). -/
def parallelCount (directed : Bool) (es : List PyEdge) (u v : PyVal) : Nat :=
  (es.filter (fun e =>
    (e.u = u && e.v = v) || (!directed && e.u = v && e.v = u))).length

/-- Add one link dictionary to the edge list: endpoints from the "source" and
"target" fields, the remaining fields as edge attributes, and (for a
multigraph) a fresh per-endpoint-pair key. -/
def addLink (directed multigraph : Bool) (es : List PyEdge) (d : Attrs) : List PyEdge :=
  let u := attrGet d "source"
  let v := attrGet d "target"
  let eattrs := d.filter (fun p => p.1 ≠ "source" && p.1 ≠ "target" && p.1 ≠ "key")
  let k := if multigraph then parallelCount directed es u v else 0
  es ++ [⟨u, v, k, eattrs⟩]

/-- Append to the node list any edge endpoint not yet declared as a node
(`add_edge` creates missing endpoint nodes with empty attributes). -/
def addMissingNodes (nodes : List (PyVal × Attrs)) (es : List PyEdge) :
    List (PyVal × Attrs) :=
  es.foldl (fun ns e =>
    let ns1 := if (ns.map Prod.fst).contains e.u then ns else ns ++ [(e.u, [])]
    if (ns1.map Prod.fst).contains e.v then ns1 else ns1 ++ [(e.v, [])]) nodes

/-- `Graph.create_graph` (base.py, lines 12-24).  The underlying
`nx.node_link_graph` collaborator is modelled from the spec (section 4.1):
directedness and multigraph-ness are taken verbatim from the description,
each node dictionary contributes its "id" field as the node id and the rest
as attributes, each link dictionary contributes its "source"/"target" fields
as endpoints and the rest as attributes, with a stable per-pair
disambiguating key in a multigraph, and endpoints missing from the node list
are added lazily. -/
def create_graph (d : GraphDataModel) : PyGraph :=
  let nodes := d.nodes.map (fun nd =>
    (attrGet nd "id", nd.filter (fun p => p.1 ≠ "id")))
  let edges := d.links.foldl (addLink d.directed d.multigraph) []
  ⟨d.directed, d.multigraph, addMissingNodes nodes edges, edges⟩

/-- Python `s.startswith(pat)`. -/
def strStartsWith (s pat : String) : Bool := pat.data.isPrefixOf s.data

/-- One fuelled pass of Python `hay.replace(pat, "")`: at each position, a
non-overlapping occurrence of `pat` is dropped and scanning resumes after
it.  The fuel (one unit per position) makes the recursion structural. -/
def removeAllChars (pat : List Char) : Nat → List Char → List Char
  | 0, hay => hay
  | _ + 1, [] => []
  | f + 1, c :: t =>
    if pat ≠ [] && pat.isPrefixOf (c :: t) then
      removeAllChars pat f ((c :: t).drop pat.length)
    else c :: removeAllChars pat f t

/-- Python `s.replace(pat, "")`: every occurrence of `pat` removed. -/
def strRemoveAll (pat s : String) : String :=
  ⟨removeAllChars pat.data s.data.length s.data⟩

/-- The error taxonomy of the resolver: `InputError` (both constructors are
`ValueError` in the Python code, distinguished here by their message
content) and `NotFoundError` carrying the alias that was looked up. -/
inductive ResolveError where
  | inputError : String → ResolveError
  | notFound : String → ResolveError
deriving DecidableEq, Repr

/-- `_resolve_graph` (cache.py, lines 17-48).  `if graph_uri:` is Python
truthiness: `None` and the empty string both fall through to the
`graph_data` branch.  The alias is `graph_uri.replace("graph://", "")` and
the materialization is `Graph(GraphDataModel.model_validate(...)).graph`. -/
def _resolve_graph (c : Cache) (graph_data : Option GraphDataModel)
    (graph_uri : Option String) : Except ResolveError PyGraph :=
  let uri := graph_uri.getD ""
  if uri ≠ "" then
    if !strStartsWith uri "graph://" then
      .error (.inputError ("Invalid graph URI '" ++ uri ++ "'. Expected 'graph://<alias>'."))
    else
      let aliasKey := strRemoveAll "graph://" uri
      match get_cached_graph c aliasKey with
      | Option.none => .error (.notFound aliasKey)
      | some d => .ok (create_graph d)
  else
    match graph_data with
    | some d => .ok (create_graph d)
    | Option.none =>
      .error (.inputError "No graph data provided. Please provide either graph_data or graph_uri.")

/-- The node ids of a materialized graph. -/
def nodeIds (G : PyGraph) : List PyVal := G.nodes.map Prod.fst

/-- The out-neighbors of `u` (both directions when the graph is
undirected). -/
def neighbors (G : PyGraph) (u : PyVal) : List PyVal :=
  G.edges.foldr (fun e acc =>
    if e.u = u then e.v :: acc
    else if !G.directed && e.v = u then e.u :: acc
    else acc) []

/-- One expansion step of the reachable set. -/
def expandReach (G : PyGraph) (s : List PyVal) : List PyVal :=
  (s ++ s.flatMap (neighbors G)).dedup

/-- The set of nodes reachable from `s` by directed walks (undirected walks
when the graph is undirected): enough expansion steps to exhaust every
vertex that occurs in the graph. -/
def reachSet (G : PyGraph) (s : PyVal) : List PyVal :=
  (expandReach G)^[G.nodes.length + 2 * G.edges.length] [s]

/-- Breadth-first search for one path to `t`, over a work list of reversed
paths, with enough fuel to be exhaustive on the graphs it is run on. -/
def findPath (G : PyGraph) (t : PyVal) : Nat → List (List PyVal) → Option (List PyVal)
  | 0, _ => Option.none
  | _ + 1, [] => Option.none
  | f + 1, p :: rest =>
    match p with
    | [] => Option.none
    | u :: _ =>
      if u = t then some p.reverse
      else findPath G t f (rest ++ (neighbors G u).map (fun w => w :: p))

/-- The errors of the shortest-path collaborator: `nx.NetworkXNoPath` and
`nx.NodeNotFound`. -/
inductive PathError where
  | noPath : PathError
  | nodeNotFound : PyVal → PathError
deriving DecidableEq, Repr

/-- Modelled from the spec: the `nx.shortest_path` collaborator (section
4.5), which is library code outside this repository.  It fails with
`NodeNotFound` when either endpoint is absent from the graph, with
`NetworkXNoPath` when both are present but the target is unreachable from
the source, and otherwise returns an unweighted shortest path found by
breadth-first search, respecting edge direction on directed graphs. -/
def nx_shortest_path (G : PyGraph) (s t : PyVal) : Except PathError (List PyVal) :=
  if (nodeIds G).contains s then
    if (nodeIds G).contains t then
      if (reachSet G s).contains t then
        .ok ((findPath G t ((G.nodes.length + 2 * G.edges.length + 1) ^ 2) [[s]]).getD [])
      else .error .noPath
    else .error (.nodeNotFound t)
  else .error (.nodeNotFound s)

/-- The value returned by the `shortest_path` tool: a path payload or a
structured error payload (`{"path": ...}` / `{"error": ...}`).  A raised
exception would be a third behavior, which the tool never exhibits. -/
inductive ToolResult where
  | path : List PyVal → ToolResult
  | error : String → ToolResult
deriving DecidableEq, Repr

/-- Rendering of a `PyVal` inside an f-string message (only the shape of the
message matters to the claims, not its exact formatting). -/
def pyValStr : PyVal → String
  | .none => "None"
  | .num q => toString q.num
  | .str s => s

/-- The message of a `ValueError` raised by the resolver (`str(e)` of the
exception). -/
def resolveErrMsg : ResolveError → String
  | .inputError m => m
  | .notFound a => "Graph '" ++ a ++ "' not found. Load it first with load_graph_from_file."

/-- The `shortest_path` tool (tools.py, lines 113-135): resolve the graph,
call the collaborator, and convert `NetworkXNoPath` and `NodeNotFound` (and
any `ValueError` from resolution) into a structured error result. -/
def shortest_path (c : Cache) (source target : PyVal)
    (graph_data : Option GraphDataModel) (graph_uri : Option String) : ToolResult :=
  match _resolve_graph c graph_data graph_uri with
  | .error e => .error ("Invalid input: " ++ resolveErrMsg e)
  | .ok G =>
    match nx_shortest_path G source target with
    | .ok p => .path p
    | .error .noPath =>
      .error ("No path found between " ++ pyValStr source ++ " and " ++ pyValStr target ++ ".")
    | .error (.nodeNotFound _) =>
      .error ("Invalid input: Either source " ++ pyValStr source ++ " or target " ++
        pyValStr target ++ " is not in G")

/-- Whether any element of the given kind in `G` carries the attribute key
`a` (the range over which `matching_attributes` collects keys). -/
def kindHasKey (G : PyGraph) (kind : ElemKind) (a : String) : Prop :=
  match kind with
  | .node => ∃ p ∈ G.nodes, ∃ q ∈ p.2, q.1 = a
  | .edge => ∃ e ∈ G.edges, ∃ q ∈ e.attrs, q.1 = a
  | .all =>
    (∃ p ∈ G.nodes, ∃ q ∈ p.2, q.1 = a) ∨ (∃ e ∈ G.edges, ∃ q ∈ e.attrs, q.1 = a)

instance (G : PyGraph) (kind : ElemKind) (a : String) : Decidable (kindHasKey G kind a) := by
  unfold kindHasKey
  cases kind <;> exact inferInstance

/-- A small concrete simple graph used to instantiate the claim theorems. -/
def gW : PyGraph :=
  ⟨true, false, [(.str "n", [("holdup_max", .num 50)]), (.str "m", [])],
    [⟨.str "n", .str "m", 0, [("w", .num 2)]⟩]⟩

/-- A small concrete multigraph used to instantiate the claim theorems. -/
def gWM : PyGraph :=
  ⟨true, true, [(.str "n", []), (.str "m", [])],
    [⟨.str "n", .str "m", 0, [("w", .num 2)]⟩, ⟨.str "n", .str "m", 1, [("w", .num 3)]⟩]⟩

/-- A concrete graph description with two isolated nodes, used to instantiate
the claim theorems. -/
def dW : GraphDataModel :=
  ⟨false, false, [[("id", .str "a")], [("id", .str "b")]], []⟩

/-! ## Helper lemmas -/

theorem operator_map_of_mem {op : String} (h : op ∈ operatorSymbols) :
    ∃ k, operator_map op = some k := by
  fin_cases h <;> exact ⟨_, rfl⟩

theorem operator_map_of_not_mem {op : String} (h : op ∉ operatorSymbols) :
    operator_map op = Option.none := by
  unfold operator_map
  split <;> simp_all [operatorSymbols]

theorem pyOrd_error_eq {a b : PyVal} {e : QueryError} (h : pyOrd a b = .error e) :
    e = .typeError := by
  cases a <;> cases b <;> simp [pyOrd] at h <;> exact h.symm

theorem pyCompare_error_eq {k : OpKind} {a b : PyVal} {e : QueryError}
    (h : pyCompare k a b = .error e) : e = .typeError := by
  cases k <;> simp only [pyCompare] at h
  case eq => exact Except.noConfusion h
  case ne => exact Except.noConfusion h
  all_goals {
    cases ho : pyOrd a b with
    | ok o => rw [ho] at h; exact Except.noConfusion h
    | error e2 =>
      rw [ho] at h
      simp only [Except.map, Except.error.injEq] at h
      rw [← h]
      exact pyOrd_error_eq ho
  }

theorem nodesScan_no_unsupported (opk : OpKind) (a : String) (v : PyVal)
    (l : List (PyVal × Attrs)) (s : String) :
    nodesScan opk a v l ≠ .error (.unsupportedOperator s) := by
  induction l with
  | nil => simp [nodesScan]
  | cons hd tl ih =>
    obtain ⟨n, attrs⟩ := hd
    simp only [nodesScan]
    split
    · exact ih
    · cases hc : pyCompare opk (attrGet attrs a) v with
      | error e =>
        intro he
        rw [Except.error.injEq] at he
        exact QueryError.noConfusion (pyCompare_error_eq hc ▸ he)
      | ok b =>
        cases hr : nodesScan opk a v tl with
        | error e2 =>
          intro he
          rw [Except.error.injEq] at he
          exact ih (hr.trans (by rw [he]))
        | ok l2 => exact Except.noConfusion

theorem edgesScanMulti_no_unsupported (opk : OpKind) (a : String) (v : PyVal)
    (l : List PyEdge) (s : String) :
    edgesScanMulti opk a v l ≠ .error (.unsupportedOperator s) := by
  induction l with
  | nil => simp [edgesScanMulti]
  | cons e tl ih =>
    simp only [edgesScanMulti]
    split
    · exact ih
    · cases hc : pyCompare opk (attrGet e.attrs a) v with
      | error err =>
        intro he
        rw [Except.error.injEq] at he
        exact QueryError.noConfusion (pyCompare_error_eq hc ▸ he)
      | ok b =>
        cases hr : edgesScanMulti opk a v tl with
        | error err =>
          intro he
          rw [Except.error.injEq] at he
          exact ih (hr.trans (by rw [he]))
        | ok l2 => exact Except.noConfusion

theorem edgesScanSimple_no_unsupported (opk : OpKind) (a : String) (v : PyVal)
    (l : List PyEdge) (s : String) :
    edgesScanSimple opk a v l ≠ .error (.unsupportedOperator s) := by
  induction l with
  | nil => simp [edgesScanSimple]
  | cons e tl ih =>
    simp only [edgesScanSimple]
    split
    · exact ih
    · cases hc : pyCompare opk (attrGet e.attrs a) v with
      | error err =>
        intro he
        rw [Except.error.injEq] at he
        exact QueryError.noConfusion (pyCompare_error_eq hc ▸ he)
      | ok b =>
        cases hr : edgesScanSimple opk a v tl with
        | error err =>
          intro he
          rw [Except.error.injEq] at he
          exact ih (hr.trans (by rw [he]))
        | ok l2 => exact Except.noConfusion

theorem nodesScan_ok_eq (opk : OpKind) (a : String) (v : PyVal)
    (l : List (PyVal × Attrs)) (res : List PyVal)
    (h : nodesScan opk a v l = .ok res) :
    res = (l.filter (fun p => decide (attrGet p.2 a ≠ PyVal.none ∧
      pyCompare opk (attrGet p.2 a) v = .ok true))).map Prod.fst := by
  induction l generalizing res with
  | nil => simp [nodesScan] at h; simp [← h]
  | cons hd tl ih =>
    obtain ⟨n, attrs⟩ := hd
    simp only [nodesScan] at h
    by_cases hn : attrGet attrs a = PyVal.none
    · rw [if_pos hn] at h
      simp [List.filter_cons, hn, ih res h]
    · rw [if_neg hn] at h
      cases hc : pyCompare opk (attrGet attrs a) v with
      | error err => rw [hc] at h; exact Except.noConfusion h
      | ok b =>
        rw [hc] at h
        cases hr : nodesScan opk a v tl with
        | error err => rw [hr] at h; exact Except.noConfusion h
        | ok l2 =>
          rw [hr] at h
          rw [Except.ok.injEq] at h
          cases b with
          | true => simp [List.filter_cons, hn, hc, ← h, ih l2 hr]
          | false =>
            have hcf : pyCompare opk (attrGet attrs a) v ≠ .ok true := by
              rw [hc]; simp
            simp [List.filter_cons, hn, hcf, ← h, ih l2 hr]

theorem edgesScanMulti_ok_eq (opk : OpKind) (a : String) (v : PyVal)
    (l : List PyEdge) (res : List EdgeId)
    (h : edgesScanMulti opk a v l = .ok res) :
    res = (l.filter (fun e => decide (attrGet e.attrs a ≠ PyVal.none ∧
      pyCompare opk (attrGet e.attrs a) v = .ok true))).map
        (fun e => EdgeId.multi e.u e.v e.key) := by
  induction l generalizing res with
  | nil => simp [edgesScanMulti] at h; simp [← h]
  | cons e tl ih =>
    simp only [edgesScanMulti] at h
    by_cases hn : attrGet e.attrs a = PyVal.none
    · rw [if_pos hn] at h
      simp [List.filter_cons, hn, ih res h]
    · rw [if_neg hn] at h
      cases hc : pyCompare opk (attrGet e.attrs a) v with
      | error err => rw [hc] at h; exact Except.noConfusion h
      | ok b =>
        rw [hc] at h
        cases hr : edgesScanMulti opk a v tl with
        | error err => rw [hr] at h; exact Except.noConfusion h
        | ok l2 =>
          rw [hr] at h
          rw [Except.ok.injEq] at h
          cases b with
          | true => simp [List.filter_cons, hn, hc, ← h, ih l2 hr]
          | false =>
            have hcf : pyCompare opk (attrGet e.attrs a) v ≠ .ok true := by
              rw [hc]; simp
            simp [List.filter_cons, hn, hcf, ← h, ih l2 hr]

theorem edgesScanSimple_ok_eq (opk : OpKind) (a : String) (v : PyVal)
    (l : List PyEdge) (res : List EdgeId)
    (h : edgesScanSimple opk a v l = .ok res) :
    res = (l.filter (fun e => decide (attrGet e.attrs a ≠ PyVal.none ∧
      pyCompare opk (attrGet e.attrs a) v = .ok true))).map
        (fun e => EdgeId.simple e.u e.v) := by
  induction l generalizing res with
  | nil => simp [edgesScanSimple] at h; simp [← h]
  | cons e tl ih =>
    simp only [edgesScanSimple] at h
    by_cases hn : attrGet e.attrs a = PyVal.none
    · rw [if_pos hn] at h
      simp [List.filter_cons, hn, ih res h]
    · rw [if_neg hn] at h
      cases hc : pyCompare opk (attrGet e.attrs a) v with
      | error err => rw [hc] at h; exact Except.noConfusion h
      | ok b =>
        rw [hc] at h
        cases hr : edgesScanSimple opk a v tl with
        | error err => rw [hr] at h; exact Except.noConfusion h
        | ok l2 =>
          rw [hr] at h
          rw [Except.ok.injEq] at h
          cases b with
          | true => simp [List.filter_cons, hn, hc, ← h, ih l2 hr]
          | false =>
            have hcf : pyCompare opk (attrGet e.attrs a) v ≠ .ok true := by
              rw [hc]; simp
            simp [List.filter_cons, hn, hcf, ← h, ih l2 hr]

theorem type_cast_eq_none_iff (v : PyVal) : type_cast v = PyVal.none ↔ v = PyVal.none := by
  cases v with
  | none => simp [type_cast]
  | num q => simp [type_cast]
  | str s =>
    simp only [type_cast]
    cases parseFloat s <;> simp

theorem type_cast_idem (v : PyVal) : type_cast (type_cast v) = type_cast v := by
  cases v with
  | none => rfl
  | num q => rfl
  | str s =>
    simp only [type_cast]
    cases hp : parseFloat s with
    | none => simp [type_cast, hp]
    | some q => simp [type_cast]

/-! ## Claim theorems -/

/-- C8: storing a graph description under an alias and then fetching that
alias returns exactly the stored description, and a second store under the
same alias unconditionally overwrites the first. -/
theorem C8_cache_roundtrip_and_overwrite (c : Cache) (x : String)
    (d d1 d2 : GraphDataModel) :
    get_cached_graph (cache_graph c x d) x = some d ∧
    get_cached_graph (cache_graph (cache_graph c x d1) x d2) x = some d2 := by
  constructor <;> simp [get_cached_graph, cache_graph]

/-- C10: with a null query value, the operator argument is irrelevant for
both node and edge queries (any two recognized operators give equal
results): `type_cast` keeps null unchanged and the null branch never
consults the operator function. -/
theorem C10_null_value_operator_irrelevant (G : PyGraph) (a : String)
    (op1 op2 : String) (h1 : op1 ∈ operatorSymbols) (h2 : op2 ∈ operatorSymbols) :
    type_cast PyVal.none = PyVal.none ∧
    nodes_by_attribute G a PyVal.none op1 = nodes_by_attribute G a PyVal.none op2 ∧
    edges_by_attribute G a PyVal.none op1 = edges_by_attribute G a PyVal.none op2 := by
  obtain ⟨k1, hk1⟩ := operator_map_of_mem h1
  obtain ⟨k2, hk2⟩ := operator_map_of_mem h2
  refine ⟨rfl, ?_, ?_⟩
  · simp [nodes_by_attribute, hk1, hk2, type_cast]
  · simp [edges_by_attribute, hk1, hk2, type_cast]

theorem C10_witness :
    nodes_by_attribute gW "holdup_max" PyVal.none "==" =
      nodes_by_attribute gW "holdup_max" PyVal.none ">=" :=
  (C10_null_value_operator_irrelevant gW "holdup_max" "==" ">="
    (by decide) (by decide)).2.1

/-- C7: an operator string outside the six recognized symbols makes both
query operations fail with `UnsupportedOperatorError` regardless of the
graph, attribute and value (no element is evaluated); each of the six
recognized symbols never produces that error. -/
theorem C7_unsupported_operator (op : String) (G : PyGraph) (a : String) (v : PyVal) :
    (op ∉ operatorSymbols →
      nodes_by_attribute G a v op = .error (.unsupportedOperator op) ∧
      edges_by_attribute G a v op = .error (.unsupportedOperator op)) ∧
    (op ∈ operatorSymbols →
      (∀ s, nodes_by_attribute G a v op ≠ .error (.unsupportedOperator s)) ∧
      (∀ s, edges_by_attribute G a v op ≠ .error (.unsupportedOperator s))) := by
  constructor
  · intro h
    have hm := operator_map_of_not_mem h
    exact ⟨by simp [nodes_by_attribute, hm], by simp [edges_by_attribute, hm]⟩
  · intro h
    obtain ⟨k, hk⟩ := operator_map_of_mem h
    constructor
    · intro s
      by_cases hv : type_cast v = PyVal.none
      · simp [nodes_by_attribute, hk, hv]
      · simp only [nodes_by_attribute, hk, if_neg hv]
        exact nodesScan_no_unsupported k a (type_cast v) G.nodes s
    · intro s
      by_cases hv : type_cast v = PyVal.none
      · cases hmg : G.multigraph <;> simp [edges_by_attribute, hk, hv, hmg]
      · cases hmg : G.multigraph
        · simp only [edges_by_attribute, hk, hmg, if_neg hv, Bool.false_eq_true,
            if_false]
          exact edgesScanSimple_no_unsupported k a (type_cast v) G.edges s
        · simp only [edges_by_attribute, hk, hmg, if_neg hv, if_true]
          exact edgesScanMulti_no_unsupported k a (type_cast v) G.edges s

theorem C7_witness :
    nodes_by_attribute gW "x" PyVal.none "~=" = .error (.unsupportedOperator "~=") ∧
    nodes_by_attribute gW "holdup_max" (.num 1) "<" ≠
      .error (.unsupportedOperator "<") :=
  ⟨((C7_unsupported_operator "~=" gW "x" PyVal.none).1 (by decide)).1,
   ((C7_unsupported_operator "<" gW "holdup_max" (.num 1)).2 (by decide)).1 "<"⟩

/-- C5: the query value is coerced by `type_cast` before any comparison: a
value parsing as a float is replaced by the parsed float, any other value is
kept unchanged, and both query operations behave exactly as if called on the
coerced value. -/
theorem C5_value_coercion (G : PyGraph) (a : String) (v : PyVal) (op : String) :
    (∀ s q, v = .str s → parseFloat s = some q → type_cast v = .num q) ∧
    (∀ s, v = .str s → parseFloat s = Option.none → type_cast v = v) ∧
    ((∀ s, v ≠ .str s) → type_cast v = v) ∧
    nodes_by_attribute G a v op = nodes_by_attribute G a (type_cast v) op ∧
    edges_by_attribute G a v op = edges_by_attribute G a (type_cast v) op := by
  refine ⟨?_, ?_, ?_, ?_, ?_⟩
  · rintro s q rfl hp; simp [type_cast, hp]
  · rintro s rfl hp; simp [type_cast, hp]
  · intro h
    cases v with
    | none => rfl
    | num q => rfl
    | str s => exact absurd rfl (h s)
  · cases hm : operator_map op with
    | none => simp [nodes_by_attribute, hm]
    | some k => simp [nodes_by_attribute, hm, type_cast_idem]
  · cases hm : operator_map op with
    | none => simp [edges_by_attribute, hm]
    | some k => simp [edges_by_attribute, hm, type_cast_idem]

theorem C5_witness :
    type_cast (.str "6.0") = .num (mkRat 60 10) ∧
    nodes_by_attribute gW "holdup_max" (.str "6.0") "<" =
      nodes_by_attribute gW "holdup_max" (type_cast (.str "6.0")) "<" :=
  ⟨(C5_value_coercion gW "holdup_max" (.str "6.0") "<").1 "6.0" (mkRat 60 10)
      rfl (by decide),
   (C5_value_coercion gW "holdup_max" (.str "6.0") "<").2.2.2.1⟩

/-- C2: with a recognized operator, a null query value returns exactly the
elements whose attribute is present and non-null (existence predicate); a
non-null query value returns exactly the elements whose attribute is present,
non-null and satisfies the comparison against the coerced query value; an
element missing the attribute reads as null through `get` and is therefore
excluded in both cases, under every operator. -/
theorem C2_predicate_evaluation (G : PyGraph) (a : String) (v : PyVal)
    (op : String) (opk : OpKind) (hop : operator_map op = some opk) :
    (v = PyVal.none →
      nodes_by_attribute G a v op =
        .ok ((G.nodes.filter (fun p => attrGet p.2 a ≠ PyVal.none)).map Prod.fst) ∧
      edges_by_attribute G a v op =
        .ok ((G.edges.filter (fun e => attrGet e.attrs a ≠ PyVal.none)).map
          (fun e => if G.multigraph then EdgeId.multi e.u e.v e.key
            else EdgeId.simple e.u e.v))) ∧
    (v ≠ PyVal.none → ∀ l, nodes_by_attribute G a v op = .ok l →
      l = (G.nodes.filter (fun p => decide (attrGet p.2 a ≠ PyVal.none ∧
        pyCompare opk (attrGet p.2 a) (type_cast v) = .ok true))).map Prod.fst) ∧
    (v ≠ PyVal.none → ∀ r, edges_by_attribute G a v op = .ok r →
      r = (G.edges.filter (fun e => decide (attrGet e.attrs a ≠ PyVal.none ∧
        pyCompare opk (attrGet e.attrs a) (type_cast v) = .ok true))).map
          (fun e => if G.multigraph then EdgeId.multi e.u e.v e.key
            else EdgeId.simple e.u e.v)) ∧
    (∀ attrs : Attrs, attrs.lookup a = Option.none → attrGet attrs a = PyVal.none) := by
  refine ⟨?_, ?_, ?_, ?_⟩
  · rintro rfl
    constructor
    · simp [nodes_by_attribute, hop, type_cast]
    · cases hmg : G.multigraph <;> simp [edges_by_attribute, hop, type_cast, hmg]
  · intro hv l hres
    have hv' : type_cast v ≠ PyVal.none := fun hc => hv ((type_cast_eq_none_iff v).mp hc)
    simp only [nodes_by_attribute, hop, if_neg hv'] at hres
    exact nodesScan_ok_eq opk a (type_cast v) G.nodes l hres
  · intro hv r hres
    have hv' : type_cast v ≠ PyVal.none := fun hc => hv ((type_cast_eq_none_iff v).mp hc)
    cases hmg : G.multigraph
    · simp only [edges_by_attribute, hop, hmg, if_neg hv', Bool.false_eq_true,
        if_false] at hres
      simp only [hmg, Bool.false_eq_true, if_false]
      exact edgesScanSimple_ok_eq opk a (type_cast v) G.edges r hres
    · simp only [edges_by_attribute, hop, hmg, if_neg hv', if_true] at hres
      simp only [hmg, if_true]
      exact edgesScanMulti_ok_eq opk a (type_cast v) G.edges r hres
  · intro attrs h
    simp [attrGet, h]

theorem C2_witness :
    PyVal.num 100 ≠ PyVal.none ∧
    [PyVal.str "n"] =
      (gW.nodes.filter (fun p => decide (attrGet p.2 "holdup_max" ≠ PyVal.none ∧
        pyCompare .lt (attrGet p.2 "holdup_max") (type_cast (.num 100)) =
          .ok true))).map Prod.fst :=
  ⟨by decide,
   (C2_predicate_evaluation gW "holdup_max" (.num 100) "<" .lt rfl).2.1
     (by decide) [PyVal.str "n"] (by decide)⟩

/-- C3: every edge identity returned by `edges_by_attribute` is the 3-tuple
shape exactly when the graph is a multigraph and the 2-tuple shape exactly
when it is not: the shape of each returned identity equals the graph's
multigraph flag. -/
theorem C3_edge_identity_shape (G : PyGraph) (a : String) (v : PyVal)
    (op : String) (r : List EdgeId) (h : edges_by_attribute G a v op = .ok r) :
    ∀ e ∈ r, e.isMulti = G.multigraph := by
  intro e he
  cases hm : operator_map op with
  | none =>
    simp only [edges_by_attribute, hm] at h
    exact Except.noConfusion h
  | some k =>
    by_cases hv : type_cast v = PyVal.none
    · cases hmg : G.multigraph
      · simp only [edges_by_attribute, hm, hmg, hv, if_true, Bool.false_eq_true,
          if_false, Except.ok.injEq] at h
        subst h
        obtain ⟨e2, _, rfl⟩ := List.mem_map.mp he
        simp [EdgeId.isMulti, hmg]
      · simp only [edges_by_attribute, hm, hmg, hv, if_true, Except.ok.injEq] at h
        subst h
        obtain ⟨e2, _, rfl⟩ := List.mem_map.mp he
        simp [EdgeId.isMulti, hmg]
    · cases hmg : G.multigraph
      · simp only [edges_by_attribute, hm, hmg, if_neg hv, Bool.false_eq_true,
          if_false] at h
        have := edgesScanSimple_ok_eq k a (type_cast v) G.edges r h
        subst this
        obtain ⟨e2, _, rfl⟩ := List.mem_map.mp he
        simp [EdgeId.isMulti, hmg]
      · simp only [edges_by_attribute, hm, hmg, if_neg hv, if_true] at h
        have := edgesScanMulti_ok_eq k a (type_cast v) G.edges r h
        subst this
        obtain ⟨e2, _, rfl⟩ := List.mem_map.mp he
        simp [EdgeId.isMulti, hmg]

theorem C3_witness :
    EdgeId.isMulti (.multi (.str "n") (.str "m") 0) = gWM.multigraph :=
  C3_edge_identity_shape gWM "w" PyVal.none "=="
    [.multi (.str "n") (.str "m") 0, .multi (.str "n") (.str "m") 1] (by decide)
    (.multi (.str "n") (.str "m") 0) (by decide)

theorem mem_nodeAttrKeys (G : PyGraph) (a : String) :
    a ∈ nodeAttrKeys G ↔ ∃ p ∈ G.nodes, ∃ q ∈ p.2, q.1 = a := by
  simp [nodeAttrKeys, List.mem_dedup, List.mem_flatMap, List.mem_map]

theorem mem_edgeAttrKeys (G : PyGraph) (a : String) :
    a ∈ edgeAttrKeys G ↔ ∃ e ∈ G.edges, ∃ q ∈ e.attrs, q.1 = a := by
  simp [edgeAttrKeys, List.mem_dedup, List.mem_flatMap, List.mem_map]

/-- C4: attribute discovery returns a duplicate-free list whose members are
exactly the attribute keys carried by some element of the requested kind in
which the search string occurs as a case-insensitive substring; two search
strings equal up to letter case give identical results. -/
theorem C4_attribute_discovery (G : PyGraph) (s1 s2 : String) (kind : ElemKind) :
    (matching_attributes G s1 kind).Nodup ∧
    (∀ a, a ∈ matching_attributes G s1 kind ↔
      kindHasKey G kind a ∧ strContains (strToLower a) (strToLower s1) = true) ∧
    (strToLower s1 = strToLower s2 →
      matching_attributes G s1 kind = matching_attributes G s2 kind) := by
  refine ⟨?_, ?_, ?_⟩
  · cases kind with
    | node => exact (List.nodup_dedup _).filter _
    | edge => exact (List.nodup_dedup _).filter _
    | all => exact (List.nodup_dedup _).filter _
  · intro a
    cases kind with
    | node =>
      simp only [matching_attributes, List.mem_filter, kindHasKey]
      rw [mem_nodeAttrKeys]
    | edge =>
      simp only [matching_attributes, List.mem_filter, kindHasKey]
      rw [mem_edgeAttrKeys]
    | all =>
      simp only [matching_attributes, List.mem_filter, kindHasKey]
      rw [List.mem_dedup, List.mem_append, mem_nodeAttrKeys, mem_edgeAttrKeys]
  · intro h
    simp [matching_attributes, h]

theorem C4_witness :
    "holdup_max" ∈ matching_attributes gW "HO" .node ∧
    matching_attributes gW "Ho" .node = matching_attributes gW "hO" .node :=
  ⟨((C4_attribute_discovery gW "HO" "HO" .node).2.1 "holdup_max").mpr
      ⟨by decide, by decide⟩,
   (C4_attribute_discovery gW "Ho" "hO" .node).2.2 (by decide)⟩

theorem removeAllChars_of_not_contains (pat : List Char) (f : Nat) (hay : List Char)
    (h : containsChars hay pat = false) : removeAllChars pat f hay = hay := by
  induction f generalizing hay with
  | zero => rfl
  | succ f ih =>
    cases hay with
    | nil => rfl
    | cons c t =>
      simp only [containsChars, Bool.or_eq_false_iff] at h
      simp only [removeAllChars, h.1, Bool.and_false, Bool.false_eq_true, if_false]
      rw [ih t h.2]

theorem removeAllChars_scheme_step (f : Nat) (t : List Char) :
    removeAllChars "graph://".data (f + 1)
        ('g' :: 'r' :: 'a' :: 'p' :: 'h' :: ':' :: '/' :: '/' :: t) =
      removeAllChars "graph://".data f t := by
  have hpat : "graph://".data = ['g', 'r', 'a', 'p', 'h', ':', '/', '/'] := rfl
  simp only [removeAllChars, hpat]
  rw [if_pos]
  · rfl
  · simp [List.isPrefixOf]

theorem strRemoveAll_after_scheme (rest : String)
    (h : strContains rest "graph://" = false) :
    strRemoveAll "graph://" ("graph://" ++ rest) = rest := by
  have hd : ("graph://" ++ rest).data =
      'g' :: 'r' :: 'a' :: 'p' :: 'h' :: ':' :: '/' :: '/' :: rest.data := by
    rw [String.data_append]; rfl
  unfold strRemoveAll
  rw [hd]
  simp only [List.length_cons]
  rw [removeAllChars_scheme_step]
  rw [removeAllChars_of_not_contains "graph://".data _ rest.data h]

/-- C1: evaluation of the resolver at the claim's failing input.  With BOTH
inline graph data and a cached alias reference given, `_resolve_graph` does
not fail with `InputError` as the claim (and the function's own docstring)
require: it resolves via the URI and returns the cached graph, ignoring the
inline data.  With NEITHER given it does fail with `InputError`. -/
theorem C1_both_given_resolves_via_uri :
    _resolve_graph (cache_graph emptyCache "a" dW)
        (some ⟨true, true, [[("id", .str "z")]], []⟩) (some "graph://a") =
      .ok (create_graph dW) ∧
    _resolve_graph emptyCache Option.none Option.none =
      .error (.inputError
        "No graph data provided. Please provide either graph_data or graph_uri.") :=
  ⟨by decide, by decide⟩

/-- C6 counterexample: the cache key is not the verbatim remainder after the
scheme.  For the reference `graph://graph://a`, whose verbatim remainder
`graph://a` is cached, the code removes every occurrence of `graph://`, looks
up `a`, and fails with `NotFoundError` where the claim predicts success. -/
theorem C6_counterexample :
    _resolve_graph (cache_graph emptyCache "graph://a" dW) Option.none
        (some "graph://graph://a") = .error (.notFound "a") := by
  decide

/-- C6 (amended): for a non-empty alias reference, the `graph://` scheme test
is mandatory (`InputError` otherwise); the cache key is the reference with
every occurrence of `graph://` removed — the verbatim remainder, empty string
included, whenever the remainder contains no further occurrence of the
scheme — and a key absent from the cache fails with `NotFoundError`. -/
theorem C6_amended_uri_parsing (c : Cache) (gd : Option GraphDataModel) (uri : String)
    (hne : uri ≠ "") :
    (strStartsWith uri "graph://" = false →
      _resolve_graph c gd (some uri) =
        .error (.inputError
          ("Invalid graph URI '" ++ uri ++ "'. Expected 'graph://<alias>'."))) ∧
    (strStartsWith uri "graph://" = true →
      (get_cached_graph c (strRemoveAll "graph://" uri) = Option.none →
        _resolve_graph c gd (some uri) =
          .error (.notFound (strRemoveAll "graph://" uri))) ∧
      (∀ d, get_cached_graph c (strRemoveAll "graph://" uri) = some d →
        _resolve_graph c gd (some uri) = .ok (create_graph d))) ∧
    (∀ rest, uri = "graph://" ++ rest → strContains rest "graph://" = false →
      strRemoveAll "graph://" uri = rest) := by
  refine ⟨?_, ?_, ?_⟩
  · intro h
    simp [_resolve_graph, hne, h]
  · intro h
    constructor
    · intro hc
      simp [_resolve_graph, hne, h, hc]
    · intro d hc
      simp [_resolve_graph, hne, h, hc]
  · rintro rest rfl h
    exact strRemoveAll_after_scheme rest h

theorem C6_amended_witness :
    _resolve_graph emptyCache Option.none (some "graph://x") =
      .error (.notFound "x") ∧
    strRemoveAll "graph://" ("graph://" ++ "x") = "x" :=
  ⟨((C6_amended_uri_parsing emptyCache Option.none "graph://x" (by decide)).2.1
      (by decide)).1 (by decide),
   (C6_amended_uri_parsing emptyCache Option.none "graph://x" (by decide)).2.2
     "x" (by decide) (by decide)⟩

theorem pyContains_iff_mem (l : List PyVal) (x : PyVal) :
    l.contains x = true ↔ x ∈ l := by
  simp [List.contains, List.elem_iff]

/-- C9: when graph resolution succeeds, the `shortest_path` tool reports the
collaborator's failures as structured error results rather than letting them
propagate: a no-path error when both endpoints are present in the graph but
the target is unreachable from the source, and a node-not-found error when
either endpoint is absent. -/
theorem C9_shortest_path_structured_errors (c : Cache) (gd : Option GraphDataModel)
    (uri : Option String) (s t : PyVal) (G : PyGraph)
    (hres : _resolve_graph c gd uri = .ok G) :
    (s ∈ nodeIds G → t ∈ nodeIds G → t ∉ reachSet G s →
      shortest_path c s t gd uri =
        .error ("No path found between " ++ pyValStr s ++ " and " ++
          pyValStr t ++ ".")) ∧
    (s ∉ nodeIds G →
      shortest_path c s t gd uri =
        .error ("Invalid input: Either source " ++ pyValStr s ++ " or target " ++
          pyValStr t ++ " is not in G")) ∧
    (t ∉ nodeIds G →
      shortest_path c s t gd uri =
        .error ("Invalid input: Either source " ++ pyValStr s ++ " or target " ++
          pyValStr t ++ " is not in G")) := by
  refine ⟨?_, ?_, ?_⟩
  · intro hs ht hnr
    have hnx : nx_shortest_path G s t = .error .noPath := by
      unfold nx_shortest_path
      rw [if_pos ((pyContains_iff_mem _ _).mpr hs),
        if_pos ((pyContains_iff_mem _ _).mpr ht),
        if_neg (fun hc => hnr ((pyContains_iff_mem _ _).mp hc))]
    simp [shortest_path, hres, hnx]
  · intro hs
    have hnx : nx_shortest_path G s t = .error (.nodeNotFound s) := by
      unfold nx_shortest_path
      rw [if_neg (fun hc => hs ((pyContains_iff_mem _ _).mp hc))]
    simp [shortest_path, hres, hnx]
  · intro ht
    by_cases hs : s ∈ nodeIds G
    · have hnx : nx_shortest_path G s t = .error (.nodeNotFound t) := by
        unfold nx_shortest_path
        rw [if_pos ((pyContains_iff_mem _ _).mpr hs),
          if_neg (fun hc => ht ((pyContains_iff_mem _ _).mp hc))]
      simp [shortest_path, hres, hnx]
    · have hnx : nx_shortest_path G s t = .error (.nodeNotFound s) := by
        unfold nx_shortest_path
        rw [if_neg (fun hc => hs ((pyContains_iff_mem _ _).mp hc))]
      simp [shortest_path, hres, hnx]

theorem C9_witness :
    shortest_path emptyCache (.str "a") (.str "b") (some dW) Option.none =
      .error "No path found between a and b." :=
  (C9_shortest_path_structured_errors emptyCache (some dW) Option.none
      (.str "a") (.str "b") (create_graph dW) (by decide)).1
    (by decide) (by decide) (by decide)
